import Mathlib

/-!
Shallow embedding of the two GPyOpt tutorial notebooks
(`GPyOpt_bandits_optimization` and the modular Bayesian-optimization
notebook): the dataset-parsing loop, the bounding-box filtering of the
station arrays, the `max_Temp` objective adapter, the
`jitter_integrated_EI` custom acquisition class, and the
`run_optimization` invocations.  Python floats are modelled as rationals,
Python dicts as insertion-ordered association lists, and the external
library's stochastic/numeric primitives (the `float` builtin, the Beta
sampler, `AcquisitionEI`) as explicit function parameters.
-/

namespace GPyOptNB

/-- A parsed day record `{'MaxT': float(...), 'MinT': float(...)}`. -/
structure DayRec where
  maxT : ℚ
  minT : ℚ
deriving DecidableEq

/-- A field of a split line, as Python's `str.split` returns it. -/
abbrev Field := List Char

/-- The key `(line_split[0], line_split[1])` of `forecast_dict`. -/
abbrev StationKey := Field × Field

/-- The inner per-station dict, keyed by the forecast-day field. -/
abbrev DayDict := List (Field × DayRec)

/-- The dict `forecast_dict` itself, keyed by station coordinates. -/
abbrev Forecast := List (StationKey × DayDict)

/-- Python dict lookup `d[k]`: the binding for the key, `none` when absent
(a `KeyError`). -/
def dictFind {α β : Type} [DecidableEq α] : List (α × β) → α → Option β
  | [], _ => none
  | (k, v) :: rest, a => if k = a then some v else dictFind rest a

/-- Python dict assignment `d[k] = v`: overwrite an existing binding in
place, otherwise append a new one. -/
def dictSet {α β : Type} [DecidableEq α] : List (α × β) → α → β → List (α × β)
  | [], a, b => [(a, b)]
  | (k, v) :: rest, a, b =>
      if k = a then (a, b) :: rest else (k, v) :: dictSet rest a b

/-- Python `s.split(' ')` on the characters of a line: split at every
single space, keeping empty fields, so the result is never empty. -/
def splitSp : List Char → List Field
  | [] => [[]]
  | c :: cs =>
    match splitSp cs with
    | [] => [[]]
    | w :: ws => if c = ' ' then [] :: w :: ws else (c :: w) :: ws

/-- The right-hand side `{'MaxT': float(line_split[3]),
'MinT': float(line_split[4][:-1])}`.  `pfloat` models the Python `float`
builtin; the result is `none` when a field is missing (`IndexError`) or a
temperature does not parse (`ValueError`). -/
def mkRec (pfloat : Field → Option ℚ) (ls : List Field) : Option DayRec := do
  let f3 ← ls[3]?
  let v3 ← pfloat f3
  let f4 ← ls[4]?
  let v4 ← pfloat f4.dropLast
  some ⟨v3, v4⟩

/-- The `try` suite: evaluate the record, then
`forecast_dict[line_split[0], line_split[1]][line_split[2]] = record`,
whose target lookup raises `KeyError` for an unseen station key. -/
def tryBody (pfloat : Field → Option ℚ) (d : Forecast) (ls : List Field) :
    Option Forecast := do
  let r ← mkRec pfloat ls
  let k0 ← ls[0]?
  let k1 ← ls[1]?
  let k2 ← ls[2]?
  let inner ← dictFind d (k0, k1)
  some (dictSet d (k0, k1) (dictSet inner k2 r))

/-- The `except` suite: `forecast_dict[line_split[0], line_split[1]] = {}`
followed by the same day assignment, which now finds the fresh empty
inner dict; a failure here escapes the loop. -/
def exceptBody (pfloat : Field → Option ℚ) (d : Forecast) (ls : List Field) :
    Option Forecast := do
  let k0 ← ls[0]?
  let k1 ← ls[1]?
  let d1 := dictSet d (k0, k1) []
  let r ← mkRec pfloat ls
  let k2 ← ls[2]?
  let inner ← dictFind d1 (k0, k1)
  some (dictSet d1 (k0, k1) (dictSet inner k2 r))

/-- One iteration of the parsing loop: split the line, run the `try`
suite, and fall back to the `except` suite when it raises. -/
def processLine (pfloat : Field → Option ℚ) (d : Forecast) (line : List Char) :
    Option Forecast :=
  let ls := splitSp line
  match tryBody pfloat d ls with
  | some d₂ => some d₂
  | none => exceptBody pfloat d ls

/-- The whole loop `for line in range(1, len(contents))` starting from the
empty `forecast_dict`; `none` models an exception escaping the loop. -/
def buildForecast (pfloat : Field → Option ℚ) (contents : List (List Char)) :
    Option Forecast :=
  (contents.drop 1).foldlM (fun d l => processLine pfloat d l) []

/-- C9: the parsing loop iterates over line indices `1` to
`len(contents) - 1`, so the first line of the file is never parsed and
contributes nothing to `forecast_dict` — replacing it changes nothing —
and a single-line file yields the empty dict. -/
theorem header_line_skipped (pfloat : Field → Option ℚ)
    (first₁ first₂ : List Char) (rest : List (List Char)) :
    buildForecast pfloat (first₁ :: rest) = buildForecast pfloat (first₂ :: rest)
    ∧ buildForecast pfloat [first₁] = some [] :=
  ⟨rfl, rfl⟩

/-- A station key has a day entry in `forecast_dict`. -/
def hasEntry (d : Forecast) (k : StationKey) (day : Field) : Bool :=
  match dictFind d k with
  | none => false
  | some inner => (dictFind inner day).isSome

/-- A toy numeral reader standing in for the Python `float` builtin in
concrete evaluations: digit strings read as naturals, anything else
rejected. -/
def digitsVal (cs : Field) : Option ℚ :=
  if !cs.isEmpty && cs.all Char.isDigit
  then some ((cs.foldl (fun n c => 10 * n + (c.toNat - 48)) 0 : ℕ) : ℚ)
  else none

theorem dictFind_dictSet_self {α β : Type} [DecidableEq α]
    (d : List (α × β)) (a : α) (b : β) :
    dictFind (dictSet d a b) a = some b := by
  induction d with
  | nil => simp [dictSet, dictFind]
  | cons p rest ih =>
    obtain ⟨k, v⟩ := p
    by_cases h : k = a
    · subst h; simp [dictSet, dictFind]
    · simp [dictSet, dictFind, h, ih]

theorem dictFind_dictSet_ne {α β : Type} [DecidableEq α]
    (d : List (α × β)) (a a' : α) (b : β) (h : a ≠ a') :
    dictFind (dictSet d a b) a' = dictFind d a' := by
  induction d with
  | nil => simp [dictSet, dictFind, h]
  | cons p rest ih =>
    obtain ⟨k, v⟩ := p
    by_cases hk : k = a
    · subst hk; simp [dictSet, dictFind, h, ih]
    · simp only [dictSet, if_neg hk, dictFind]
      by_cases hk' : k = a' <;> simp [hk', ih]

theorem dictSet_dictSet_self {α β : Type} [DecidableEq α]
    (d : List (α × β)) (a : α) (b c : β) :
    dictSet (dictSet d a b) a c = dictSet d a c := by
  induction d with
  | nil => simp [dictSet]
  | cons p rest ih =>
    obtain ⟨k, v⟩ := p
    by_cases hk : k = a
    · subst hk; simp [dictSet]
    · simp [dictSet, hk, ih]

theorem hasEntry_dictSet (d : Forecast) (key : StationKey) (inner : DayDict)
    (k : StationKey) (day : Field) :
    hasEntry (dictSet d key inner) k day
      = if k = key then (dictFind inner day).isSome else hasEntry d k day := by
  by_cases h : k = key
  · subst h; simp [hasEntry, dictFind_dictSet_self]
  · simp [hasEntry, dictFind_dictSet_ne d key k inner (fun h' => h h'.symm), h]

theorem mkRec_isSome_keys (pfloat : Field → Option ℚ) (ls : List Field)
    (h : (mkRec pfloat ls).isSome = true) :
    ∃ k0 k1 k2, ls[0]? = some k0 ∧ ls[1]? = some k1 ∧ ls[2]? = some k2 := by
  have hlen : 4 < ls.length := by
    by_contra hlen
    have h4 : ls[4]? = none := List.getElem?_eq_none_iff.mpr (by omega)
    rw [mkRec] at h
    cases h3 : ls[3]? with
    | none => simp [h3] at h
    | some f3 =>
      cases hv3 : pfloat f3 with
      | none => simp [h3, hv3] at h
      | some v3 => simp [h3, hv3, h4] at h
  have h0 : 0 < ls.length := by omega
  have h1 : 1 < ls.length := by omega
  have h2 : 2 < ls.length := by omega
  exact ⟨ls[0], ls[1], ls[2], List.getElem?_eq_getElem h0,
    List.getElem?_eq_getElem h1, List.getElem?_eq_getElem h2⟩

theorem tryBody_none_iff (pfloat : Field → Option ℚ) (d : Forecast)
    (ls : List Field) (r : DayRec) (k0 k1 k2 : Field)
    (hr : mkRec pfloat ls = some r) (h0 : ls[0]? = some k0)
    (h1 : ls[1]? = some k1) (h2 : ls[2]? = some k2) :
    tryBody pfloat d ls = none ↔ dictFind d (k0, k1) = none := by
  cases hfind : dictFind d (k0, k1) with
  | none => simp [tryBody, hr, h0, h1, h2, hfind]
  | some inner => simp [tryBody, hr, h0, h1, h2, hfind]

theorem processLine_spec (pfloat : Field → Option ℚ) (d : Forecast)
    (line : List Char) (r : DayRec) (k0 k1 k2 : Field)
    (hr : mkRec pfloat (splitSp line) = some r)
    (h0 : (splitSp line)[0]? = some k0)
    (h1 : (splitSp line)[1]? = some k1)
    (h2 : (splitSp line)[2]? = some k2) :
    ∃ d₂, processLine pfloat d line = some d₂ ∧
      ∀ k day, (hasEntry d₂ k day = true ↔
        (hasEntry d k day = true ∨ (k = (k0, k1) ∧ day = k2))) := by
  cases hfind : dictFind d (k0, k1) with
  | some inner =>
    refine ⟨dictSet d (k0, k1) (dictSet inner k2 r), ?_, ?_⟩
    · simp [processLine, tryBody, hr, h0, h1, h2, hfind]
    · intro k day
      rw [hasEntry_dictSet]
      by_cases hk : k = (k0, k1)
      · subst hk
        by_cases hday : day = k2
        · subst hday
          simp [dictFind_dictSet_self, hasEntry, hfind]
        · simp [dictFind_dictSet_ne inner k2 day r (fun h' => hday h'.symm),
            hasEntry, hfind, hday]
      · simp [hk]
  | none =>
    refine ⟨dictSet d (k0, k1) (dictSet ([] : DayDict) k2 r), ?_, ?_⟩
    · have htry : tryBody pfloat d (splitSp line) = none := by
        simp [tryBody, hr, h0, h1, h2, hfind]
      have hgot : dictFind (dictSet d (k0, k1) ([] : DayDict)) (k0, k1)
          = some ([] : DayDict) := dictFind_dictSet_self d (k0, k1) ([] : DayDict)
      simp [processLine, htry, exceptBody, hr, h0, h1, h2, hgot,
        dictSet_dictSet_self]
    · intro k day
      rw [hasEntry_dictSet]
      by_cases hk : k = (k0, k1)
      · subst hk
        by_cases hday : day = k2
        · subst hday
          simp [dictFind_dictSet_self, dictFind, hasEntry, hfind]
        · simp [dictFind_dictSet_ne ([] : DayDict) k2 day r (Ne.symm hday),
            dictFind, hasEntry, hfind, hday, Ne.symm hday]
      · simp [hk]

theorem buildFold (pfloat : Field → Option ℚ) (lines : List (List Char))
    (d : Forecast)
    (hwf : ∀ l ∈ lines, (mkRec pfloat (splitSp l)).isSome = true) :
    ∃ d₂, lines.foldlM (fun d l => processLine pfloat d l) d = some d₂ ∧
      ∀ k day, (hasEntry d₂ k day = true ↔
        (hasEntry d k day = true ∨ ∃ l ∈ lines,
          (splitSp l)[0]? = some k.1 ∧ (splitSp l)[1]? = some k.2 ∧
          (splitSp l)[2]? = some day)) := by
  induction lines generalizing d with
  | nil => exact ⟨d, rfl, by simp⟩
  | cons l rest ih =>
    have hl := hwf l (by simp)
    obtain ⟨r, hr⟩ := Option.isSome_iff_exists.mp hl
    obtain ⟨k0, k1, k2, h0, h1, h2⟩ := mkRec_isSome_keys pfloat (splitSp l) hl
    obtain ⟨d₁, hd₁, hspec⟩ := processLine_spec pfloat d l r k0 k1 k2 hr h0 h1 h2
    obtain ⟨d₂, hd₂, hrest⟩ := ih d₁ (fun l' hl' => hwf l' (by simp [hl']))
    refine ⟨d₂, ?_, ?_⟩
    · simp [List.foldlM_cons, hd₁, hd₂]
    · intro k day
      have hPl : ((splitSp l)[0]? = some k.1 ∧ (splitSp l)[1]? = some k.2 ∧
          (splitSp l)[2]? = some day) ↔ (k = (k0, k1) ∧ day = k2) := by
        rw [h0, h1, h2]
        simp [Prod.ext_iff, eq_comm, and_assoc]
      rw [hrest, hspec k day]
      simp only [List.mem_cons]
      constructor
      · rintro ((h | hkd) | ⟨l', hl', hp⟩)
        · exact Or.inl h
        · exact Or.inr ⟨l, Or.inl rfl, hPl.mpr hkd⟩
        · exact Or.inr ⟨l', Or.inr hl', hp⟩
      · rintro (h | ⟨l', hl', hp⟩)
        · exact Or.inl (Or.inl h)
        · rcases hl' with rfl | hl'
          · exact Or.inl (Or.inr (hPl.mp hp))
          · exact Or.inr ⟨l', hl', hp⟩

/-- C3: for a line whose record parses, the `except` branch fires exactly
when the station key `(line_split[0], line_split[1])` is absent from
`forecast_dict`; and for a file all of whose data lines parse, the loop
finishes without an escaping exception and the final `forecast_dict` has
one nested entry per (station, day) pair appearing in the data lines. -/
theorem except_branch_iff_new_key (pfloat : Field → Option ℚ)
    (contents : List (List Char))
    (hwf : ∀ l ∈ contents.drop 1, (mkRec pfloat (splitSp l)).isSome = true)
    (d : Forecast) (ls : List Field) (hls : (mkRec pfloat ls).isSome = true)
    (k0 k1 : Field) (h0 : ls[0]? = some k0) (h1 : ls[1]? = some k1)
    (d₂ : Forecast) (hbf : buildForecast pfloat contents = some d₂)
    (k : StationKey) (day : Field) :
    (tryBody pfloat d ls = none ↔ dictFind d (k0, k1) = none)
    ∧ (buildForecast pfloat contents).isSome = true
    ∧ (hasEntry d₂ k day = true ↔ ∃ l ∈ contents.drop 1,
        (splitSp l)[0]? = some k.1 ∧ (splitSp l)[1]? = some k.2 ∧
        (splitSp l)[2]? = some day) := by
  obtain ⟨r, hr⟩ := Option.isSome_iff_exists.mp hls
  obtain ⟨k0', k1', k2, h0', h1', h2'⟩ := mkRec_isSome_keys pfloat ls hls
  have hk0 : k0' = k0 := by rw [h0'] at h0; exact Option.some.inj h0
  have hk1 : k1' = k1 := by rw [h1'] at h1; exact Option.some.inj h1
  rw [hk0] at h0'; rw [hk1] at h1'
  obtain ⟨d₂', hd₂', hchar⟩ := buildFold pfloat (contents.drop 1) [] hwf
  have hbf' : buildForecast pfloat contents = some d₂' := hd₂'
  have heq : d₂' = d₂ := by rw [hbf'] at hbf; exact Option.some.inj hbf
  subst heq
  refine ⟨tryBody_none_iff pfloat d ls r k0 k1 k2 hr h0' h1' h2', ?_, ?_⟩
  · rw [hbf']; rfl
  · have h := hchar k day
    simpa [hasEntry, dictFind] using h

/-- Header line and first data line of a concrete two-line file. -/
def c3hdr : List Char := ['h']

/-- The data line `1 2 0 15 7C`: station key `("1", "2")`, day `0`,
maximum temperature `15`, minimum temperature `7` after stripping. -/
def c3line : List Char := ['1', ' ', '2', ' ', '0', ' ', '1', '5', ' ', '7', 'C']

/-- The dict the parsing loop builds from the two-line file. -/
def c3dict : Forecast := [((['1'], ['2']), [(['0'], ⟨15, 7⟩)])]

theorem except_branch_iff_new_key_check :
    (∀ l ∈ ([c3hdr, c3line] : List (List Char)).drop 1,
        (mkRec digitsVal (splitSp l)).isSome = true)
    ∧ ((tryBody digitsVal [] (splitSp c3line) = none ↔
          dictFind ([] : Forecast) (['1'], ['2']) = none)
       ∧ (buildForecast digitsVal [c3hdr, c3line]).isSome = true
       ∧ (hasEntry c3dict (['1'], ['2']) ['0'] = true ↔
            ∃ l ∈ ([c3hdr, c3line] : List (List Char)).drop 1,
              (splitSp l)[0]? = some ['1'] ∧ (splitSp l)[1]? = some ['2'] ∧
              (splitSp l)[2]? = some ['0'])) :=
  ⟨by decide,
   except_branch_iff_new_key digitsVal [c3hdr, c3line] (by decide) []
     (splitSp c3line) (by decide) ['1'] ['2'] (by decide) (by decide)
     c3dict (by decide) (['1'], ['2']) ['0']⟩

/-- Lookup of the day record stored for station `k` and day `day`. -/
def entry2 (d : Forecast) (k : StationKey) (day : Field) : Option DayRec :=
  match dictFind d k with
  | none => none
  | some inner => dictFind inner day

/-- C6: a data line is split on single spaces into fields; fields 0 and 1
form the station key, field 2 the forecast-day key, field 3 parses to
`MaxT`, and field 4 with its trailing character stripped parses to
`MinT`; the parsed record is stored under that key and day. -/
theorem line_fields_order (pfloat : Field → Option ℚ) (d : Forecast)
    (line : List Char) (f0 f1 f2 f3 f4 : Field) (rest : List Field)
    (v3 v4 : ℚ)
    (hsplit : splitSp line = f0 :: f1 :: f2 :: f3 :: f4 :: rest)
    (h3 : pfloat f3 = some v3) (h4 : pfloat f4.dropLast = some v4)
    (d₂ : Forecast) (hd₂ : processLine pfloat d line = some d₂) :
    (processLine pfloat d line).isSome = true
    ∧ entry2 d₂ (f0, f1) f2 = some ⟨v3, v4⟩ := by
  have hr : mkRec pfloat (splitSp line) = some ⟨v3, v4⟩ := by
    simp [mkRec, hsplit, h3, h4]
  have h0 : (splitSp line)[0]? = some f0 := by rw [hsplit]; rfl
  have h1 : (splitSp line)[1]? = some f1 := by rw [hsplit]; rfl
  have h2 : (splitSp line)[2]? = some f2 := by rw [hsplit]; rfl
  cases hfind : dictFind d (f0, f1) with
  | some inner0 =>
    have hpl : processLine pfloat d line
        = some (dictSet d (f0, f1) (dictSet inner0 f2 ⟨v3, v4⟩)) := by
      simp [processLine, tryBody, hr, h0, h1, h2, hfind]
    have hde : d₂ = dictSet d (f0, f1) (dictSet inner0 f2 ⟨v3, v4⟩) :=
      Option.some.inj (hd₂.symm.trans hpl)
    subst hde
    exact ⟨by rw [hpl]; rfl, by simp [entry2, dictFind_dictSet_self]⟩
  | none =>
    have htry : tryBody pfloat d (splitSp line) = none := by
      simp [tryBody, hr, h0, h1, h2, hfind]
    have hgot : dictFind (dictSet d (f0, f1) ([] : DayDict)) (f0, f1)
        = some ([] : DayDict) := dictFind_dictSet_self d (f0, f1) ([] : DayDict)
    have hpl : processLine pfloat d line
        = some (dictSet d (f0, f1) (dictSet ([] : DayDict) f2 ⟨v3, v4⟩)) := by
      simp [processLine, htry, exceptBody, hr, h0, h1, h2, hgot,
        dictSet_dictSet_self]
    have hde : d₂ = dictSet d (f0, f1) (dictSet ([] : DayDict) f2 ⟨v3, v4⟩) :=
      Option.some.inj (hd₂.symm.trans hpl)
    subst hde
    exact ⟨by rw [hpl]; rfl, by simp [entry2, dictFind_dictSet_self]⟩

theorem line_fields_order_check :
    (splitSp ['3', '0', ' ', '9', '5', ' ', '2', ' ', '1', '5', ' ', '7', 'C']
        = [['3', '0'], ['9', '5'], ['2'], ['1', '5'], ['7', 'C']])
    ∧ digitsVal ['1', '5'] = some 15
    ∧ digitsVal (List.dropLast ['7', 'C']) = some 7
    ∧ processLine digitsVal []
        ['3', '0', ' ', '9', '5', ' ', '2', ' ', '1', '5', ' ', '7', 'C']
        = some [((['3', '0'], ['9', '5']), [(['2'], ⟨15, 7⟩)])]
    ∧ ((processLine digitsVal []
          ['3', '0', ' ', '9', '5', ' ', '2', ' ', '1', '5', ' ', '7', 'C']).isSome = true
       ∧ entry2 [((['3', '0'], ['9', '5']), [(['2'], ⟨15, 7⟩)])]
           (['3', '0'], ['9', '5']) ['2'] = some ⟨15, 7⟩) :=
  ⟨by decide, by decide, by decide, by decide,
   line_fields_order digitsVal []
     ['3', '0', ' ', '9', '5', ' ', '2', ' ', '1', '5', ' ', '7', 'C']
     ['3', '0'] ['9', '5'] ['2'] ['1', '5'] ['7', 'C'] [] 15 7
     (by decide) (by decide) (by decide)
     [((['3', '0'], ['9', '5']), [(['2'], ⟨15, 7⟩)])] (by decide)⟩

/-- The mask `sel = np.logical_and(np.logical_and(lat>24, lat<51),
np.logical_and(lon>-130, lon<-65))`, elementwise over the parallel
latitude and longitude arrays. -/
def selMask (lat lon : List ℚ) : List Bool :=
  List.zipWith
    (fun la lo => (decide (24 < la) && decide (la < 51))
      && (decide (-130 < lo) && decide (lo < -65))) lat lon

/-- The array `stations_coordinates_all = np.array([lon, lat]).T`: rows of
(longitude, latitude). -/
def stations_coordinates_all (lat lon : List ℚ) : List (ℚ × ℚ) :=
  lon.zip lat

/-- The array `stations_maxT_all = np.array([temperature]).T`: the temperature
column. -/
def stations_maxT_all (temperature : List ℚ) : List ℚ :=
  temperature

/-- Row selection `a[sel, :]` of a numpy array by a boolean mask. -/
def maskSelect {α : Type} (m : List Bool) (xs : List α) : List α :=
  (m.zip xs).filterMap fun p => if p.1 then some p.2 else none

/-- The filtered array `stations_coordinates = stations_coordinates_all[sel, :]`. -/
def stations_coordinates (lat lon : List ℚ) : List (ℚ × ℚ) :=
  maskSelect (selMask lat lon) (stations_coordinates_all lat lon)

/-- The filtered array `stations_maxT = stations_maxT_all[sel, :]`. -/
def stations_maxT (lat lon temperature : List ℚ) : List ℚ :=
  maskSelect (selMask lat lon) (stations_maxT_all temperature)

theorem maskSelect_sublist {α : Type} (m : List Bool) (xs : List α) :
    (maskSelect m xs).Sublist xs := by
  induction m generalizing xs with
  | nil => simp [maskSelect]
  | cons b m ih =>
    cases xs with
    | nil => simp [maskSelect]
    | cons x xs =>
      cases b with
      | true => simpa [maskSelect] using (ih xs).cons₂ x
      | false => simpa [maskSelect] using (ih xs).cons x

theorem maskSelect_zip {α β : Type} (m : List Bool) (xs : List α)
    (ys : List β) (h : xs.length = ys.length) :
    maskSelect m (xs.zip ys) = (maskSelect m xs).zip (maskSelect m ys) := by
  induction m generalizing xs ys with
  | nil => simp [maskSelect]
  | cons b m ih =>
    cases xs with
    | nil =>
      cases ys with
      | nil => simp [maskSelect]
      | cons y ys => simp at h
    | cons x xs =>
      cases ys with
      | nil => simp at h
      | cons y ys =>
        have h' : xs.length = ys.length := by simpa using h
        have hrec := ih xs ys h'
        cases b with
        | true => simpa [maskSelect] using hrec
        | false => simpa [maskSelect] using hrec

theorem maskSelect_length {α β : Type} (m : List Bool) (xs : List α)
    (ys : List β) (h : xs.length = ys.length) :
    (maskSelect m xs).length = (maskSelect m ys).length := by
  induction m generalizing xs ys with
  | nil => simp [maskSelect]
  | cons b m ih =>
    cases xs with
    | nil =>
      cases ys with
      | nil => simp [maskSelect]
      | cons y ys => simp at h
    | cons x xs =>
      cases ys with
      | nil => simp at h
      | cons y ys =>
        have h' : xs.length = ys.length := by simpa using h
        have hrec := ih xs ys h'
        cases b with
        | true => simpa [maskSelect] using hrec
        | false => simpa [maskSelect] using hrec

/-- C4: position `i` passes the `sel` mask iff its latitude lies in the
open interval (24, 51) and its longitude in the open interval
(−130, −65) — a station exactly on a bound fails the strict comparisons —
and `stations_coordinates` and `stations_maxT` are exactly the rows
passing that mask. -/
theorem bounding_box_strict (lat lon temperature : List ℚ) (i : ℕ)
    (h1 : i < lat.length) (h2 : i < lon.length) :
    ((selMask lat lon)[i]? = some true ↔
      (24 < lat[i] ∧ lat[i] < 51 ∧ -130 < lon[i] ∧ lon[i] < -65))
    ∧ stations_coordinates lat lon
        = maskSelect (selMask lat lon) (lon.zip lat)
    ∧ stations_maxT lat lon temperature
        = maskSelect (selMask lat lon) temperature := by
  refine ⟨?_, rfl, rfl⟩
  have hlen : i < (selMask lat lon).length := by
    simp only [selMask, List.length_zipWith]
    omega
  rw [List.getElem?_eq_getElem hlen]
  simp [selMask, List.getElem_zipWith, and_assoc]

theorem bounding_box_strict_check :
    ((0 : ℕ) < ([(30 : ℚ)]).length ∧ (0 : ℕ) < ([(-100 : ℚ)]).length)
    ∧ (((selMask [30] [-100])[0]? = some true ↔
          (24 < (30 : ℚ) ∧ (30 : ℚ) < 51 ∧ -130 < (-100 : ℚ)
            ∧ (-100 : ℚ) < -65))
       ∧ stations_coordinates [30] [-100]
           = maskSelect (selMask [30] [-100]) ([(-100 : ℚ)].zip [(30 : ℚ)])
       ∧ stations_maxT [30] [-100] [7]
           = maskSelect (selMask [30] [-100]) [(7 : ℚ)]) :=
  ⟨⟨by decide, by decide⟩,
   bounding_box_strict [30] [-100] [7] 0 (by decide) (by decide)⟩

/-- C8: the same mask `sel` filters both arrays row-wise: the filtered
coordinates and temperatures zip into exactly the masked rows of the
zipped unfiltered arrays, have equal lengths, and each filtered array is
an order-preserving sublist of its unfiltered array. -/
theorem mask_preserves_pairing (lat lon temperature : List ℚ)
    (hll : lon.length = lat.length) (hlt : lon.length = temperature.length) :
    (stations_coordinates lat lon).zip (stations_maxT lat lon temperature)
      = maskSelect (selMask lat lon) ((lon.zip lat).zip temperature)
    ∧ (stations_coordinates lat lon).length
        = (stations_maxT lat lon temperature).length
    ∧ (stations_coordinates lat lon).Sublist (stations_coordinates_all lat lon)
    ∧ (stations_maxT lat lon temperature).Sublist
        (stations_maxT_all temperature) := by
  have hz : (lon.zip lat).length = temperature.length := by
    rw [List.length_zip]
    omega
  exact ⟨(maskSelect_zip (selMask lat lon) (lon.zip lat) temperature hz).symm,
    maskSelect_length (selMask lat lon) (lon.zip lat) temperature hz,
    maskSelect_sublist (selMask lat lon) (lon.zip lat),
    maskSelect_sublist (selMask lat lon) temperature⟩

theorem mask_preserves_pairing_check :
    (([(-100 : ℚ), -80]).length = ([(30 : ℚ), 60]).length
      ∧ ([(-100 : ℚ), -80]).length = ([(7 : ℚ), 9]).length)
    ∧ ((stations_coordinates [30, 60] [-100, -80]).zip
          (stations_maxT [30, 60] [-100, -80] [7, 9])
        = maskSelect (selMask [30, 60] [-100, -80])
            (([(-100 : ℚ), -80].zip [(30 : ℚ), 60]).zip [(7 : ℚ), 9])
       ∧ (stations_coordinates [30, 60] [-100, -80]).length
           = (stations_maxT [30, 60] [-100, -80] [7, 9]).length
       ∧ (stations_coordinates [30, 60] [-100, -80]).Sublist
           (stations_coordinates_all [30, 60] [-100, -80])
       ∧ (stations_maxT [30, 60] [-100, -80] [7, 9]).Sublist
           (stations_maxT_all [7, 9])) :=
  ⟨⟨by decide, by decide⟩,
   mask_preserves_pairing [30, 60] [-100, -80] [7, 9] (by decide) (by decide)⟩

/-- One row of `0.5*(stations_coordinates == x).sum(axis=1)`: half the
number of coordinates of station `c` equal to the corresponding
coordinate of the query `x`. -/
def matchScore (c x : ℚ × ℚ) : ℚ :=
  (1 / 2) * ((if c.1 = x.1 then 1 else 0) + (if c.2 = x.2 then 1 else 0))

/-- The method `max_Temp.f`: the scalar value of
`np.dot(0.5*(self.stations_coordinates == x).sum(axis=1), self.stations_maxT)`
for a single query row `x`. -/
def maxTempF (coords : List (ℚ × ℚ)) (maxT : List ℚ) (x : ℚ × ℚ) : ℚ :=
  ((coords.zip maxT).map fun p => matchScore p.1 x * p.2).sum

theorem maxTempF_cons (c : ℚ × ℚ) (cs : List (ℚ × ℚ)) (t : ℚ) (ts : List ℚ)
    (x : ℚ × ℚ) :
    maxTempF (c :: cs) (t :: ts) x = matchScore c x * t + maxTempF cs ts x := by
  simp [maxTempF]

theorem zero_score_sum (coords : List (ℚ × ℚ)) (maxT : List ℚ) (x : ℚ × ℚ)
    (h : ∀ j (hj : j < coords.length),
      (coords[j]).1 ≠ x.1 ∧ (coords[j]).2 ≠ x.2) :
    maxTempF coords maxT x = 0 := by
  induction coords generalizing maxT with
  | nil => simp [maxTempF]
  | cons c cs ih =>
    cases maxT with
    | nil => simp [maxTempF]
    | cons t ts =>
      have h0 := h 0 (by simp)
      have hc : matchScore c x = 0 := by
        simp only [List.getElem_cons_zero] at h0
        simp [matchScore, h0.1, h0.2]
      have ihr := ih ts (fun j hj => by
        have := h (j + 1) (by simpa using Nat.succ_lt_succ hj)
        simpa using this)
      rw [maxTempF_cons, hc, ihr]
      ring

/-- C1 fails on the code: `max_Temp.f` is not a pure lookup of the
matching station — any other station sharing one coordinate value with
the query contributes half its temperature.  With stations (−100, 30) and
(−100, 40) holding temperatures 10 and 20, querying the first station
returns 10 + 0.5·20 = 20, not the recorded 10. -/
theorem lookup_claim_counterexample :
    maxTempF [(-100, 30), (-100, 40)] [10, 20] (-100, 30) = 20
    ∧ maxTempF [(-100, 30), (-100, 40)] [10, 20] (-100, 30) ≠ 10 := by
  constructor <;> norm_num [maxTempF, matchScore]

/-- C1 amended: when the query `x` equals the coordinates of station `i0`
and no other station shares either coordinate value with `x`,
`max_Temp.f` returns exactly that station's precomputed temperature. -/
theorem unique_match_lookup (coords : List (ℚ × ℚ)) (maxT : List ℚ)
    (x : ℚ × ℚ) (i0 : ℕ) (hi : i0 < coords.length)
    (hlen : coords.length = maxT.length)
    (hmatch : coords[i0] = x)
    (hothers : ∀ j (hj : j < coords.length), j ≠ i0 →
      (coords[j]).1 ≠ x.1 ∧ (coords[j]).2 ≠ x.2) :
    maxTempF coords maxT x = maxT.get ⟨i0, hlen ▸ hi⟩ := by
  induction coords generalizing maxT i0 with
  | nil => exact absurd hi (by simp)
  | cons c cs ih =>
    cases maxT with
    | nil => simp at hlen
    | cons t ts =>
      have hlen' : cs.length = ts.length := by simpa using hlen
      cases i0 with
      | zero =>
        have hcx : c = x := by simpa using hmatch
        have hms : matchScore c x = 1 := by simp [matchScore, hcx]; norm_num
        have hzero : maxTempF cs ts x = 0 := by
          apply zero_score_sum
          intro j hj
          have := hothers (j + 1) (by simpa using Nat.succ_lt_succ hj)
            (by omega)
          simpa using this
        rw [maxTempF_cons, hms, hzero]
        simp
      | succ i =>
        have h0 := hothers 0 (by simp) (by omega)
        have hms : matchScore c x = 0 := by
          simp only [List.getElem_cons_zero] at h0
          simp [matchScore, h0.1, h0.2]
        have hi' : i < cs.length := by simpa using hi
        have hmatch' : cs[i] = x := by simpa using hmatch
        have hothers' : ∀ j (hj : j < cs.length), j ≠ i →
            (cs[j]).1 ≠ x.1 ∧ (cs[j]).2 ≠ x.2 := by
          intro j hj hne
          have := hothers (j + 1) (by simpa using Nat.succ_lt_succ hj)
            (by omega)
          simpa using this
        rw [maxTempF_cons, hms, ih ts i hi' hlen' hmatch' hothers']
        simp

theorem unique_match_lookup_check :
    ([((1 : ℚ), (2 : ℚ)), (3, 4)].get ⟨0, by decide⟩ = ((1 : ℚ), (2 : ℚ)))
    ∧ maxTempF [((1 : ℚ), (2 : ℚ)), (3, 4)] [10, 20] (1, 2) = 10 :=
  ⟨by decide,
   unique_match_lookup [(1, 2), (3, 4)] [10, 20] (1, 2) 0 (by decide)
     (by decide) (by decide) (by decide)⟩

/-- A value vector: an `(m, 1)` numpy column, one entry per row of `x`. -/
abbrev Vec := List ℚ

/-- A gradient matrix shaped like the input `x`. -/
abbrev Mat := List (List ℚ)

/-- Elementwise `+=` on value columns. -/
def vadd (a b : Vec) : Vec := List.zipWith (· + ·) a b

/-- Elementwise `+=` on gradient matrices. -/
def madd (a b : Mat) : Mat := List.zipWith vadd a b

/-- The column `np.zeros((n, 1))`. -/
def vzeros (n : ℕ) : Vec := List.replicate n 0

/-- The matrix `np.zeros(x.shape)`. -/
def mzeros (x : Mat) : Mat := x.map fun row => List.replicate row.length 0

/-- The fields of a `jitter_integrated_EI` instance, plus the mutable
`jitter` field of the wrapped `AcquisitionEI` instance `self.EI`. -/
structure JitterIntegratedEI where
  par_a : ℚ
  par_b : ℚ
  num_samples : ℕ
  samples : List ℚ
  eiJitter : ℚ
deriving DecidableEq

/-- The constructor `__init__`: store the parameters and draw
`self.samples = beta(self.par_a, self.par_b, self.num_samples)`.  The
library's `numpy.random.beta` sampler (in its current random state) and
the fresh `AcquisitionEI`'s initial jitter are explicit arguments, since
both live in the external library. -/
def jitterIntegratedEI_mk (beta : ℚ → ℚ → ℕ → List ℚ) (par_a par_b : ℚ)
    (num_samples : ℕ) (jitter₀ : ℚ) : JitterIntegratedEI :=
  { par_a := par_a, par_b := par_b, num_samples := num_samples,
    samples := beta par_a par_b num_samples, eiJitter := jitter₀ }

/-- One iteration of the `acquisition_function` loop: assign
`self.EI.jitter = self.samples[k]`, then add
`self.EI.acquisition_function(x)` — modelled by `eiVal` applied to the
EI's current jitter — to the accumulator. -/
def acqStep (eiVal : ℚ → Mat → Vec) (x : Mat)
    (acc : Vec × JitterIntegratedEI) (k : ℕ) : Vec × JitterIntegratedEI :=
  let st₂ := { acc.2 with eiJitter := acc.2.samples.getD k 0 }
  (vadd acc.1 (eiVal st₂.eiJitter x), st₂)

/-- The method `acquisition_function(self, x)`: start from zeros,
run the loop over `range(self.num_samples)`, and divide by
`num_samples`.  Returns the value together with the mutated object
state. -/
def acquisition_function (eiVal : ℚ → Mat → Vec) (st : JitterIntegratedEI)
    (x : Mat) : Vec × JitterIntegratedEI :=
  let r := (List.range st.num_samples).foldl (acqStep eiVal x)
    (vzeros x.length, st)
  (r.1.map (· / (st.num_samples : ℚ)), r.2)

/-- One iteration of the `acquisition_function_withGradients` loop:
assign the jitter, then accumulate both components of
`self.EI.acquisition_function_withGradients(x)`. -/
def acqGradStep (eiValGrad : ℚ → Mat → Vec × Mat) (x : Mat)
    (acc : (Vec × Mat) × JitterIntegratedEI) (k : ℕ) :
    (Vec × Mat) × JitterIntegratedEI :=
  let st₂ := { acc.2 with eiJitter := acc.2.samples.getD k 0 }
  let vg := eiValGrad st₂.eiJitter x
  ((vadd acc.1.1 vg.1, madd acc.1.2 vg.2), st₂)

/-- The method `acquisition_function_withGradients(self, x)`: the same loop
accumulating values and gradients, each divided by `num_samples` at the
end. -/
def acquisition_function_withGradients (eiValGrad : ℚ → Mat → Vec × Mat)
    (st : JitterIntegratedEI) (x : Mat) : (Vec × Mat) × JitterIntegratedEI :=
  let r := (List.range st.num_samples).foldl (acqGradStep eiValGrad x)
    ((vzeros x.length, mzeros x), st)
  ((r.1.1.map (· / (st.num_samples : ℚ)),
    r.1.2.map fun row => row.map (· / (st.num_samples : ℚ))), r.2)

/-- The arithmetic mean of a list of value columns of height `n`. -/
def vmean (vs : List Vec) (n : ℕ) : Vec :=
  (vs.foldl vadd (vzeros n)).map (· / (vs.length : ℚ))

/-- The arithmetic mean of a list of gradient matrices shaped like `x`. -/
def mmean (ms : List Mat) (x : Mat) : Mat :=
  (ms.foldl madd (mzeros x)).map fun row => row.map (· / (ms.length : ℚ))

theorem acq_fold (eiVal : ℚ → Mat → Vec) (x : Mat) (st : JitterIntegratedEI)
    (v : Vec) (n : ℕ) :
    (List.range n).foldl (acqStep eiVal x) (v, st)
      = ((List.range n).foldl
          (fun w k => vadd w (eiVal (st.samples.getD k 0) x)) v,
         if n = 0 then st
         else { st with eiJitter := st.samples.getD (n - 1) 0 }) := by
  induction n with
  | zero => simp
  | succ m ih =>
    rw [List.range_succ, List.foldl_append, List.foldl_append, ih]
    by_cases hm : m = 0 <;> simp [hm, acqStep]

theorem acqg_fold (eiValGrad : ℚ → Mat → Vec × Mat) (x : Mat)
    (st : JitterIntegratedEI) (v : Vec) (g : Mat) (n : ℕ) :
    (List.range n).foldl (acqGradStep eiValGrad x) ((v, g), st)
      = (((List.range n).foldl
            (fun w k => vadd w (eiValGrad (st.samples.getD k 0) x).1) v,
          (List.range n).foldl
            (fun w k => madd w (eiValGrad (st.samples.getD k 0) x).2) g),
         if n = 0 then st
         else { st with eiJitter := st.samples.getD (n - 1) 0 }) := by
  induction n with
  | zero => simp
  | succ m ih =>
    rw [List.range_succ, List.foldl_append, List.foldl_append,
      List.foldl_append, ih]
    by_cases hm : m = 0 <;> simp [hm, acqGradStep]

theorem foldl_range_getD {α β : Type} (l : List α) (d : α) (f : β → α → β)
    (i : β) :
    (List.range l.length).foldl (fun b k => f b (l.getD k d)) i
      = l.foldl f i := by
  induction l generalizing i with
  | nil => simp
  | cons a t ih =>
    rw [List.length_cons, List.range_succ_eq_map]
    simp only [List.foldl_cons, List.foldl_map, List.getD_cons_zero,
      List.getD_cons_succ]
    exact ih (f i a)

theorem vfold_eq (eiVal : ℚ → Mat → Vec) (x : Mat) (samples : List ℚ)
    (i : Vec) :
    (List.range samples.length).foldl
        (fun w k => vadd w (eiVal (samples.getD k 0) x)) i
      = (samples.map fun j => eiVal j x).foldl vadd i := by
  rw [List.foldl_map]
  exact foldl_range_getD samples 0 (fun w j => vadd w (eiVal j x)) i

theorem gfold_eq (eiValGrad : ℚ → Mat → Vec × Mat) (x : Mat)
    (samples : List ℚ) (i : Mat) :
    (List.range samples.length).foldl
        (fun w k => madd w (eiValGrad (samples.getD k 0) x).2) i
      = (samples.map fun j => (eiValGrad j x).2).foldl madd i := by
  rw [List.foldl_map]
  exact foldl_range_getD samples 0 (fun w j => madd w (eiValGrad j x).2) i

/-- C2: with a positive sample count, `acquisition_function(x)` returns
the arithmetic mean over `k = 0..num_samples-1` of the wrapped EI
acquisition evaluated at jitter `samples[k]`, and
`acquisition_function_withGradients(x)` the pair of arithmetic means of
its values and gradients over the same fixed sample set. -/
theorem acquisition_is_mean (eiVal : ℚ → Mat → Vec)
    (eiValGrad : ℚ → Mat → Vec × Mat) (st : JitterIntegratedEI) (x : Mat)
    (hn : 0 < st.num_samples) (hs : st.samples.length = st.num_samples) :
    (acquisition_function eiVal st x).1
      = vmean (st.samples.map fun j => eiVal j x) x.length
    ∧ (acquisition_function_withGradients eiValGrad st x).1
      = (vmean (st.samples.map fun j => (eiValGrad j x).1) x.length,
         mmean (st.samples.map fun j => (eiValGrad j x).2) x) := by
  constructor
  · simp only [acquisition_function, acq_fold]
    rw [← hs, vfold_eq]
    simp [vmean, hs]
  · simp only [acquisition_function_withGradients, acqg_fold]
    rw [← hs, vfold_eq (fun j y => (eiValGrad j y).1), gfold_eq]
    simp [vmean, mmean, hs]

theorem acquisition_is_mean_check :
    ((0 : ℕ) < 2 ∧ ([(1 : ℚ)/4, 1/2] : List ℚ).length = 2)
    ∧ ((acquisition_function (fun j _ => [j])
          ⟨1, 1, 2, [1/4, 1/2], 1/100⟩ [[0, 0]]).1
        = vmean ([(1 : ℚ)/4, 1/2].map fun j => [j]) 1
       ∧ (acquisition_function_withGradients (fun j _ => ([j], [[j, j]]))
            ⟨1, 1, 2, [1/4, 1/2], 1/100⟩ [[0, 0]]).1
          = (vmean ([(1 : ℚ)/4, 1/2].map fun j => [j]) 1,
             mmean ([(1 : ℚ)/4, 1/2].map fun j => [[j, j]]) [[0, 0]])) :=
  ⟨⟨by decide, by decide⟩,
   acquisition_is_mean (fun j _ => [j]) (fun j _ => ([j], [[j, j]]))
     ⟨1, 1, 2, [1/4, 1/2], 1/100⟩ [[0, 0]] (by decide) (by decide)⟩

/-- C10: with a positive sample count, both acquisition methods leave the
wrapped EI's jitter equal to `samples[num_samples - 1]` and change none
of the instance's own fields (`par_a`, `par_b`, `num_samples`,
`samples`). -/
theorem jitter_mutation_frame (eiVal : ℚ → Mat → Vec)
    (eiValGrad : ℚ → Mat → Vec × Mat) (st : JitterIntegratedEI) (x : Mat)
    (hn : 0 < st.num_samples) :
    (acquisition_function eiVal st x).2
      = { st with eiJitter := st.samples.getD (st.num_samples - 1) 0 }
    ∧ (acquisition_function_withGradients eiValGrad st x).2
      = { st with eiJitter := st.samples.getD (st.num_samples - 1) 0 } := by
  have hne : st.num_samples ≠ 0 := Nat.pos_iff_ne_zero.mp hn
  constructor
  · simp only [acquisition_function, acq_fold]
    simp [hne]
  · simp only [acquisition_function_withGradients, acqg_fold]
    simp [hne]

theorem jitter_mutation_frame_check :
    (0 : ℕ) < 2
    ∧ ((acquisition_function (fun j _ => [j])
          ⟨1, 1, 2, [1/4, 1/2], 1/100⟩ [[0, 0]]).2
        = ⟨1, 1, 2, [1/4, 1/2], 1/2⟩
       ∧ (acquisition_function_withGradients (fun j _ => ([j], [[j, j]]))
            ⟨1, 1, 2, [1/4, 1/2], 1/100⟩ [[0, 0]]).2
          = ⟨1, 1, 2, [1/4, 1/2], 1/2⟩) :=
  ⟨by decide,
   jitter_mutation_frame (fun j _ => [j]) (fun j _ => ([j], [[j, j]]))
     ⟨1, 1, 2, [1/4, 1/2], 1/100⟩ [[0, 0]] (by decide)⟩

/-- A model of `numpy.random.beta` in one state of the library's global
random generator. -/
def betaDrawA : ℚ → ℚ → ℕ → List ℚ := fun _ _ n => List.replicate n 0

/-- A model of `numpy.random.beta` in another random state. -/
def betaDrawB : ℚ → ℚ → ℕ → List ℚ := fun _ _ n => List.replicate n 1

/-- C5 fails on the code: the jitter samples are not an array already
supplied by the library — `__init__` generates them itself at
construction time by calling the Beta sampler, so two constructions with
identical parameters but different sampler states store different
`samples` arrays. -/
theorem samples_not_presupplied :
    (jitterIntegratedEI_mk betaDrawA 1 1 2 (1/100)).samples
      ≠ (jitterIntegratedEI_mk betaDrawB 1 1 2 (1/100)).samples := by
  decide

/-- C5 amended: `self.samples` is the array the notebook class itself
generates at construction time, as the result of its own `__init__` call
`beta(self.par_a, self.par_b, self.num_samples)` to the library's Beta
sampler. -/
theorem samples_generated_at_construction (beta : ℚ → ℚ → ℕ → List ℚ)
    (par_a par_b : ℚ) (num_samples : ℕ) (jitter₀ : ℚ) :
    (jitterIntegratedEI_mk beta par_a par_b num_samples jitter₀).samples
      = beta par_a par_b num_samples := rfl

/-- The arguments a notebook passes to the library's `run_optimization`:
the `max_iter` budget, plus the signature's other stopping parameters
(`max_time`, `eps`), which the notebooks leave unset. -/
structure RunOptimizationCall where
  max_iter : ℕ
  max_time : Option ℚ
  eps : Option ℚ
deriving DecidableEq

/-- The bandit notebook's budget `max_iter = 50`. -/
def bandit_max_iter : ℕ := 50

/-- The modular notebook's budget `max_iter = 10`. -/
def modular_max_iter : ℕ := 10

/-- The bandit notebook's only optimization call,
`myBopt.run_optimization(max_iter)`. -/
def bandit_run_calls : List RunOptimizationCall :=
  [{ max_iter := bandit_max_iter, max_time := none, eps := none }]

/-- The modular notebook's only optimization call,
`bo.run_optimization(max_iter = max_iter)`. -/
def modular_run_calls : List RunOptimizationCall :=
  [{ max_iter := modular_max_iter, max_time := none, eps := none }]

/-- C7: each notebook invokes `run_optimization` exactly once, with the
fixed budgets 50 (bandit) and 10 (modular) passed as `max_iter` and no
other stopping parameter configured. -/
theorem run_optimization_budgets :
    bandit_run_calls = [{ max_iter := 50, max_time := none, eps := none }]
    ∧ modular_run_calls = [{ max_iter := 10, max_time := none, eps := none }]
    ∧ bandit_run_calls.length = 1 ∧ modular_run_calls.length = 1 :=
  ⟨rfl, rfl, rfl, rfl⟩

end GPyOptNB
